import Mathlib

/-!
Shallow embedding of the Cycles standalone driver
(`intern/cycles/app/cycles_standalone.cpp`) together with the OSL
brightness/contrast shader (`node_brightness`).  The driver's global
`options` struct becomes an explicit state record, `exit()` becomes an
outcome constructor, printed lines become a list of structured messages,
and side-effecting calls on the session become events in a trace.
-/

namespace Cycles

/-- Modelled from the spec: `device.h` is not among the sampled sources.
The spec describes the Device Registry type tags as an enumerated set
("e.g. CPU, GPU-variant, multi-device") with a sentinel "none" type that
`type_from_string` returns for an unknown name. -/
inductive DeviceType
  | NONE
  | CPU
  | CUDA
  | OPENCL
  | NETWORK
  | MULTI
  deriving DecidableEq, Repr

/-- Modelled from the spec: "Device Info: type tag, human-readable
description, display-capability flag". -/
structure DeviceInfo where
  type : DeviceType
  description : String
  display_device : Bool
  deriving DecidableEq, Repr

/-- Modelled from the spec: default-constructed `DeviceInfo` (the value
`options.session_params.device` holds before the matching loop assigns
one).  Its concrete field values never influence any theorem below:
whenever no device matched, `options_parse` exits on the
`!device_available` disjunct regardless of this value. -/
def defaultDeviceInfo : DeviceInfo :=
  { type := DeviceType.CPU, description := "", display_device := false }

/-- Modelled from the spec: the Device Registry contract of §4.1,
`available_types`, `available_devices` (an ordered sequence) and
`type_from_string` (unknown name maps to the sentinel none type).
The registry is kept abstract: theorems quantify over it. -/
structure DeviceRegistry where
  available_types : List DeviceType
  available_devices : List DeviceInfo
  type_from_string : String → DeviceType

/-- `SceneParams::shadingsystem` selector (`SceneParams::OSL` / `SceneParams::SVM`). -/
inductive ShadingSystem
  | OSL
  | SVM
  deriving DecidableEq, Repr

/-- The `SceneParams` fields the driver touches. -/
structure SceneParams where
  shadingsystem : ShadingSystem := ShadingSystem.SVM
  deriving DecidableEq, Repr

/-- The `SessionParams` fields the driver touches: device selection,
background flag, sample count, output path, thread count, progressive flag. -/
structure SessionParams where
  device : DeviceInfo := defaultDeviceInfo
  background : Bool := false
  progressive : Bool := false
  samples : Int := 0
  output_path : String := ""
  threads : Int := 0
  deriving DecidableEq, Repr

/-- `Camera` as far as the driver reads it: declared width/height. -/
structure Camera where
  width : Int
  height : Int
  deriving DecidableEq, Repr

/-- `Scene` as far as the driver reads it: the camera.  The XML loader is
an external collaborator; a loaded scene is passed in as a value. -/
structure Scene where
  camera : Camera
  deriving DecidableEq, Repr

/-- `BufferParams`: width, height and the full (virtual-frame) extent. -/
structure BufferParams where
  width : Int
  height : Int
  full_width : Int
  full_height : Int
  deriving DecidableEq, Repr

/-- The update callback slot of the session's progress tracker.  The
driver installs either the nullary `session_print_status` or (GUI builds)
`view_redraw`. -/
inductive UpdateCallback
  | unset
  | printStatus
  | viewRedraw
  deriving DecidableEq, Repr

/-- The session state the driver manipulates: constructor parameters, the
buffer parameters and target sample count of the last `reset`, the
attached scene, the installed progress callback, and whether `start()`
ran. -/
structure Session where
  params : SessionParams
  buffer_params : BufferParams
  target_samples : Int
  scene : Option Scene
  update_callback : UpdateCallback
  started : Bool
  deriving DecidableEq, Repr

/-- The driver's global `options` struct. -/
structure OptionsState where
  session : Option Session
  scene : Option Scene
  filepath : String
  width : Int
  height : Int
  scene_params : SceneParams
  session_params : SessionParams
  quiet : Bool
  show_help : Bool
  deriving DecidableEq, Repr

/-- One line printed by `options_parse` (stdout and stderr merged, in
program order).  Lines whose exact text the driver computes carry it. -/
inductive Msg
  | argError
  | usage
  | devicesHeader
  | deviceLine (line : String)
  | unknownDevice (devicename : String)
  | unknownShadingSystem (ssname : String)
  | oslCpuOnly
  | invalidSamples (samples : Int)
  | noFilePath
  deriving DecidableEq, Repr

/-- `EXIT_SUCCESS` / `EXIT_FAILURE`. -/
inductive ExitCode
  | success
  | failure
  deriving DecidableEq, Repr

/-- Result of `options_parse`: either the process exited (with code and
printed lines), or parsing succeeded and the driver proceeds into `main`
with the populated `options` state (scene already loaded by
`scene_init`). -/
inductive ParseOutcome
  | exited (code : ExitCode) (out : List Msg)
  | proceed (s : OptionsState)
  deriving DecidableEq, Repr

/-- The lines printed on the way to an exit (`[]` when parsing proceeded). -/
def ParseOutcome.msgs : ParseOutcome → List Msg
  | ParseOutcome.exited _ out => out
  | ParseOutcome.proceed _ => []

/-- The values `ArgParse` leaves in the driver's locals and option fields
after `ap.parse` returns (argument parsing itself is an out-of-scope
external collaborator; `parseError` records `ap.parse(argc, argv) < 0`).
Defaults are the initializations performed at the top of `options_parse`
(`devicename = "cpu"`, `ssname = "svm"`, zero-initialized globals). -/
structure ParsedArgs where
  parseError : Bool := false
  devicename : String := "cpu"
  ssname : String := "svm"
  background : Bool := false
  quiet : Bool := false
  samples : Int := 0
  output_path : String := ""
  threads : Int := 0
  width : Int := 0
  height : Int := 0
  list : Bool := false
  help : Bool := false
  filepath : String := ""
  deriving DecidableEq, Repr

/-- Modelled from the spec: the default-constructed `SceneParams`
(`scene.h` is not among the sampled sources); the driver's `--shadingsys`
default is "svm", and an unrecognized name leaves the field at this
default (the branch at lines 278-281 assigns nothing then). -/
def default_scene_params : SceneParams :=
  { shadingsystem := ShadingSystem.SVM }

/-- The line `options_parse` prints for one device under `--list-devices`:
four spaces, the description, and a " (display)" suffix for
display-capable devices. -/
def deviceLineString (d : DeviceInfo) : String :=
  "    " ++ d.description ++ (if d.display_device then " (display)" else "")

/-- `session_buffer_params()`: builds `BufferParams` from the current
options; the full extent always equals the render extent. -/
def session_buffer_params (o : OptionsState) : BufferParams :=
  { width := o.width
    height := o.height
    full_width := o.width
    full_height := o.height }

/-- `scene_init(width, height)`: stores the loaded scene and, when either
requested dimension is zero, falls back to the scene camera's declared
width/height. -/
def scene_init (loaded : Scene) (o : OptionsState) (width height : Int) : OptionsState :=
  let o := { o with scene := some loaded }
  if width == 0 || height == 0 then
    { o with width := loaded.camera.width, height := loaded.camera.height }
  else
    o

/-- `options_parse(argc, argv)` followed by its trailing `scene_init`
call.  `withOSL` reflects `#ifdef WITH_OSL` (without it `--shadingsys` is
not registered, so `ssname` keeps its "svm" default); `withGUI` reflects
`#ifdef WITH_CYCLES_STANDALONE_GUI` (without it background is forced). -/
def options_parse (withOSL withGUI : Bool) (reg : DeviceRegistry)
    (a : ParsedArgs) (loaded : Scene) : ParseOutcome :=
  if a.parseError then
    ParseOutcome.exited ExitCode.failure [Msg.argError, Msg.usage]
  else if a.list then
    ParseOutcome.exited ExitCode.success
      (Msg.devicesHeader ::
        reg.available_devices.map (fun d => Msg.deviceLine (deviceLineString d)))
  else if a.help || a.filepath == "" then
    ParseOutcome.exited ExitCode.success [Msg.usage]
  else
    let ssname := if withOSL then a.ssname else "svm"
    let shadingsystem :=
      if ssname == "osl" then ShadingSystem.OSL
      else if ssname == "svm" then ShadingSystem.SVM
      else (default_scene_params).shadingsystem
    let background := if withGUI then a.background else true
    let progressive := if withGUI && !background then true else false
    let device_type := reg.type_from_string a.devicename
    let matched := reg.available_devices.find? (fun d => d.type == device_type)
    let device := match matched with
      | some d => d
      | none => defaultDeviceInfo
    let device_available := matched.isSome
    if device.type == DeviceType.NONE || !device_available then
      ParseOutcome.exited ExitCode.failure [Msg.unknownDevice a.devicename]
    else if withOSL && !(ssname == "osl" || ssname == "svm") then
      ParseOutcome.exited ExitCode.failure [Msg.unknownShadingSystem ssname]
    else if withOSL && shadingsystem == ShadingSystem.OSL
        && !(device.type == DeviceType.CPU) then
      ParseOutcome.exited ExitCode.failure [Msg.oslCpuOnly]
    else if a.samples < 0 then
      ParseOutcome.exited ExitCode.failure [Msg.invalidSamples a.samples]
    else if a.filepath == "" then
      ParseOutcome.exited ExitCode.failure [Msg.noFilePath]
    else
      let st : OptionsState :=
        { session := none
          scene := none
          filepath := a.filepath
          width := a.width
          height := a.height
          scene_params := { shadingsystem := shadingsystem }
          session_params :=
            { device := device
              background := background
              progressive := progressive
              samples := a.samples
              output_path := a.output_path
              threads := a.threads }
          quiet := a.quiet
          show_help := false }
      ParseOutcome.proceed (scene_init loaded st a.width a.height)

/-- One observable call the driver makes on the session (or related
teardown/printing), recorded in program order. -/
inductive Event
  | sessionNew
  | sessionReset (bp : BufferParams) (samples : Int)
  | attachScene
  | setStatusCallback
  | setRedrawCallback
  | sessionStart
  | sessionWait
  | sessionDelete
  | sceneDelete
  | setCancel (reason : String)
  | printFinished
  deriving DecidableEq, Repr

/-- `session_init()`: constructs the session, resets it with the current
buffer parameters and target sample count, attaches the scene, installs
the progress callback (`session_print_status` in background non-quiet
mode, `view_redraw` otherwise in GUI builds), starts the session, and
finally clears the driver's own scene pointer. -/
def session_init (withGUI : Bool) (o : OptionsState) : OptionsState × List Event :=
  let bp := session_buffer_params o
  let n := o.session_params.samples
  let cb :=
    if o.session_params.background && !o.quiet then UpdateCallback.printStatus
    else if withGUI then UpdateCallback.viewRedraw
    else UpdateCallback.unset
  let cbEvents :=
    if o.session_params.background && !o.quiet then [Event.setStatusCallback]
    else if withGUI then [Event.setRedrawCallback]
    else []
  let sess : Session :=
    { params := o.session_params
      buffer_params := bp
      target_samples := n
      scene := o.scene
      update_callback := cb
      started := true }
  ({ o with session := some sess, scene := none },
   [Event.sessionNew, Event.sessionReset bp n, Event.attachScene]
     ++ cbEvents ++ [Event.sessionStart])

/-- `session_exit()`: deletes the session when one exists, deletes the
driver-held scene when one exists, and prints the final message in
background non-quiet mode. -/
def session_exit (o : OptionsState) : OptionsState × List Event :=
  let sessionEvents := match o.session with
    | some _ => [Event.sessionDelete]
    | none => []
  let sceneEvents := match o.scene with
    | some _ => [Event.sceneDelete]
    | none => []
  let finEvents :=
    if o.session_params.background && !o.quiet then [Event.printFinished] else []
  ({ o with session := none, scene := none },
   sessionEvents ++ sceneEvents ++ finEvents)

/-- The background branch of `main` after `options_parse`:
`session_init(); options.session->wait(); session_exit();`. -/
def mainBackground (withGUI : Bool) (o : OptionsState) : OptionsState × List Event :=
  let (o1, e1) := session_init withGUI o
  let (o2, e2) := session_exit o1
  (o2, e1 ++ [Event.sessionWait] ++ e2)

/-- GUI `resize(width, height)` callback: stores the new dimensions and,
when a session exists, resets it with the recomputed buffer parameters. -/
def resize (o : OptionsState) (width height : Int) : OptionsState × List Event :=
  let o := { o with width := width, height := height }
  match o.session with
  | some _ =>
    (o, [Event.sessionReset (session_buffer_params o) o.session_params.samples])
  | none => (o, [])

/-- GUI `keyboard(key)` callback: restart on `r`, toggle help on `h`,
cancel on escape (character 27). -/
def keyboard (o : OptionsState) (key : Char) : OptionsState × List Event :=
  if key = 'r' then
    (o, [Event.sessionReset (session_buffer_params o) o.session_params.samples])
  else if key = 'h' then
    ({ o with show_help := !o.show_help }, [])
  else if key = Char.ofNat 27 then
    (o, [Event.setCancel "Canceled"])
  else
    (o, [])

/-- The Progress State fields the driver reads: sample index, tile
index, timings (reals modelled as rationals), status and substatus. -/
structure Progress where
  sample : Int
  tile : Int
  total_time : ℚ
  sample_time : ℚ
  status : String
  substatus : String

/-- `Progress::get_sample()`: snapshot read of the sample index. -/
def get_sample (p : Progress) : Int := p.sample

/-- `Progress::get_tile(tile, total_time, sample_time)`: snapshot read of
tile index and timings. -/
def get_tile (p : Progress) : Int × ℚ × ℚ := (p.tile, p.total_time, p.sample_time)

/-- `Progress::get_status(status, substatus)`: snapshot read of the
status strings. -/
def get_status (p : Progress) : String × String := (p.status, p.substatus)

/-- `session_print_status()`: pulls sample, tile and status snapshots
from the progress tracker and formats the line it hands to
`session_print` (`"Sample %d   %s"`, the status extended by
`": " ++ substatus` when the substatus is nonempty). -/
def session_print_status (p : Progress) : String :=
  let sample := get_sample p
  let _tileInfo := get_tile p
  let statusPair := get_status p
  let status :=
    if statusPair.2 ≠ "" then statusPair.1 ++ ": " ++ statusPair.2 else statusPair.1
  "Sample " ++ toString sample ++ "   " ++ status

/-- `node_brightness` from the OSL shader: with `a = 1 + Contrast` and
`b = Bright - Contrast * 0.5`, each output channel is
`max(a * ColorIn[i] + b, 0)`.  Floats are modelled as rationals. -/
def node_brightness (ColorIn : Fin 3 → ℚ) (Bright Contrast : ℚ) : Fin 3 → ℚ :=
  let a : ℚ := 1 + Contrast
  let b : ℚ := Bright - Contrast * (1 / 2)
  fun i => max (a * ColorIn i + b) 0


/-- A CPU device as the registry would report it (concrete value for
instantiating theorems). -/
def cpuDevice : DeviceInfo :=
  { type := DeviceType.CPU, description := "Intel CPU", display_device := false }

/-- A CUDA device as the registry would report it (concrete value for
instantiating theorems). -/
def cudaDevice : DeviceInfo :=
  { type := DeviceType.CUDA, description := "NVIDIA GPU", display_device := true }

/-- A concrete registry with a CPU and a CUDA device. -/
def sampleRegistry : DeviceRegistry :=
  { available_types := [DeviceType.CPU, DeviceType.CUDA]
    available_devices := [cpuDevice, cudaDevice]
    type_from_string := fun s =>
      if s = "cpu" then DeviceType.CPU
      else if s = "cuda" then DeviceType.CUDA
      else DeviceType.NONE }

/-- A concrete loaded scene. -/
def sampleScene : Scene := { camera := { width := 800, height := 600 } }

/-- A concrete post-parse driver state (background render of
`sampleScene`). -/
def sampleOptions : OptionsState :=
  { session := none
    scene := some sampleScene
    filepath := "scene.xml"
    width := 800
    height := 600
    scene_params := { shadingsystem := ShadingSystem.SVM }
    session_params :=
      { device := cpuDevice
        background := true
        progressive := false
        samples := 4
        output_path := ""
        threads := 0 }
    quiet := false
    show_help := false }

/-- A concrete progress snapshot. -/
def sampleProgress : Progress :=
  { sample := 7
    tile := 3
    total_time := 12
    sample_time := 1 / 2
    status := "Rendering"
    substatus := "Path Tracing" }

/-- The `options` state `options_parse` hands to its trailing
`scene_init` call for the invocation `cycles scene.xml` (defaults, CPU
device, no explicit dimensions) against `sampleRegistry`. -/
def proceedState : OptionsState :=
  { session := none
    scene := none
    filepath := "scene.xml"
    width := 0
    height := 0
    scene_params := { shadingsystem := ShadingSystem.SVM }
    session_params :=
      { device := cpuDevice
        background := false
        progressive := true
        samples := 0
        output_path := ""
        threads := 0 }
    quiet := false
    show_help := false }

/-- C10: for every input color and parameters, each channel of
`node_brightness`'s output equals
`max((1 + Contrast) * ColorIn[i] + Bright - Contrast * 0.5, 0)` and is in
particular non-negative. -/
theorem node_brightness_formula (ColorIn : Fin 3 → ℚ) (Bright Contrast : ℚ) (i : Fin 3) :
    node_brightness ColorIn Bright Contrast i
      = max ((1 + Contrast) * ColorIn i + Bright - Contrast * (1 / 2)) 0
    ∧ 0 ≤ node_brightness ColorIn Bright Contrast i := by
  constructor
  · show max ((1 + Contrast) * ColorIn i + (Bright - Contrast * (1 / 2))) 0 = _
    congr 1
    ring
  · exact le_max_right _ _

/-- C5: `session_init` hands the scene to the session and clears the
driver's own scene pointer, so the subsequent `session_exit` releases the
scene through session destruction and never takes its scene-delete
branch. -/
theorem session_init_releases_scene (wg : Bool) (o : OptionsState) :
    ((session_init wg o).1).scene = none
    ∧ ((session_init wg o).1).session.map Session.scene = some o.scene
    ∧ Event.sceneDelete ∉ (session_exit (session_init wg o).1).2 := by
  refine ⟨rfl, rfl, ?_⟩
  simp only [session_init, session_exit]
  split <;> simp

/-- C3: in background mode, `main` produces exactly the trace
construct-session, reset with the driver's buffer parameters and target
sample count, attach scene, install the progress callback, start, wait,
and only then the teardown (session deletion and final print): no
teardown event precedes the wait. -/
theorem main_background_trace_order (wg : Bool) (o : OptionsState)
    (hbg : o.session_params.background = true) :
    (mainBackground wg o).2 =
      [Event.sessionNew,
       Event.sessionReset (session_buffer_params o) o.session_params.samples,
       Event.attachScene]
      ++ (if o.quiet then (if wg then [Event.setRedrawCallback] else [])
          else [Event.setStatusCallback])
      ++ [Event.sessionStart, Event.sessionWait, Event.sessionDelete]
      ++ (if o.quiet then [] else [Event.printFinished]) := by
  cases hq : o.quiet <;> cases wg <;>
    simp [mainBackground, session_init, session_exit, hbg, hq]

/-- C3 witness: the trace for a concrete background state. -/
theorem main_background_trace_order_witness :
    (mainBackground false sampleOptions).2 =
      [Event.sessionNew,
       Event.sessionReset (session_buffer_params sampleOptions)
         sampleOptions.session_params.samples,
       Event.attachScene]
      ++ (if sampleOptions.quiet then (if false then [Event.setRedrawCallback] else [])
          else [Event.setStatusCallback])
      ++ [Event.sessionStart, Event.sessionWait, Event.sessionDelete]
      ++ (if sampleOptions.quiet then [] else [Event.printFinished]) :=
  main_background_trace_order false sampleOptions rfl

/-- C6: the status string `session_print_status` hands to
`session_print` depends only on the snapshots returned by `get_sample`,
`get_tile` and `get_status` (pull model, no pushed values), and the
callback the driver registers in background non-quiet mode is that
nullary status printer. -/
theorem session_print_status_pull_model :
    (∀ p q : Progress,
        get_sample p = get_sample q → get_tile p = get_tile q →
        get_status p = get_status q →
        session_print_status p = session_print_status q)
    ∧ (∀ (wg : Bool) (o : OptionsState),
        o.session_params.background = true → o.quiet = false →
        ((session_init wg o).1).session.map Session.update_callback
          = some UpdateCallback.printStatus) := by
  constructor
  · intro p q hs _ht hst
    rw [Prod.ext_iff] at hst
    obtain ⟨h1, h2⟩ := hst
    simp only [session_print_status, get_sample, get_status] at *
    rw [hs, h1, h2]
  · intro wg o hbg hq
    simp [session_init, hbg, hq]

/-- C6 witness: the pull-model factoring and callback registration at
concrete inputs. -/
theorem session_print_status_pull_model_witness :
    session_print_status sampleProgress = session_print_status sampleProgress
    ∧ ((session_init false sampleOptions).1).session.map Session.update_callback
        = some UpdateCallback.printStatus :=
  ⟨session_print_status_pull_model.1 sampleProgress sampleProgress rfl rfl rfl,
   session_print_status_pull_model.2 false sampleOptions rfl rfl⟩

/-- C8: every `BufferParams` carried by a session-reset event the driver
issues (background main, GUI `resize`, keyboard restart) has
`full_width = width` and `full_height = height`: the full virtual frame,
never a cropped sub-region. -/
theorem driver_resets_full_frame (wg : Bool) (o : OptionsState) (w h : Int) (c : Char)
    (bp : BufferParams) (n : Int)
    (hmem : Event.sessionReset bp n ∈ (mainBackground wg o).2
      ∨ Event.sessionReset bp n ∈ (resize o w h).2
      ∨ Event.sessionReset bp n ∈ (keyboard o c).2) :
    bp.full_width = bp.width ∧ bp.full_height = bp.height := by
  rcases hmem with hm | hm | hm
  · cases hbq : (o.session_params.background && !o.quiet) <;> cases wg <;>
      simp [mainBackground, session_init, session_exit, hbq] at hm <;>
      (obtain ⟨rfl, -⟩ := hm; exact ⟨rfl, rfl⟩)
  · cases hsess : o.session <;> simp [resize, hsess] at hm
    obtain ⟨rfl, -⟩ := hm
    exact ⟨rfl, rfl⟩
  · by_cases h1 : c = 'r'
    · simp [keyboard, h1] at hm
      obtain ⟨rfl, -⟩ := hm
      exact ⟨rfl, rfl⟩
    · by_cases h2 : c = 'h' <;> by_cases h3 : c = Char.ofNat 27 <;>
        simp [keyboard, h1, h2, h3] at hm

/-- C8 witness: the reset issued by a concrete background run is of the
full frame. -/
theorem driver_resets_full_frame_witness :
    (session_buffer_params sampleOptions).full_width
        = (session_buffer_params sampleOptions).width
    ∧ (session_buffer_params sampleOptions).full_height
        = (session_buffer_params sampleOptions).height :=
  driver_resets_full_frame false sampleOptions 0 0 'x'
    (session_buffer_params sampleOptions) sampleOptions.session_params.samples
    (Or.inl (by decide))

set_option maxHeartbeats 2000000 in
/-- C4: when the driver is invoked with `width = 0` and `height = 0` and
parsing proceeds, the state `options_parse` produces (via `scene_init`)
carries the scene camera's declared width and height. -/
theorem zero_dimensions_use_camera (wOSL wGUI : Bool) (reg : DeviceRegistry)
    (a : ParsedArgs) (loaded : Scene) (s : OptionsState)
    (hw : a.width = 0) (hh : a.height = 0)
    (hp : options_parse wOSL wGUI reg a loaded = ParseOutcome.proceed s) :
    s.width = loaded.camera.width ∧ s.height = loaded.camera.height := by
  simp only [options_parse] at hp
  repeat
    first
      | exact ParseOutcome.noConfusion hp
      | (injection hp with h
         subst h
         rw [hw, hh]
         exact ⟨by simp [scene_init], by simp [scene_init]⟩)
      | split at hp

/-- C4 witness: `cycles scene.xml` with no explicit dimensions adopts the
800x600 declared by `sampleScene`'s camera. -/
theorem zero_dimensions_use_camera_witness :
    (scene_init sampleScene proceedState 0 0).width = sampleScene.camera.width
    ∧ (scene_init sampleScene proceedState 0 0).height = sampleScene.camera.height :=
  zero_dimensions_use_camera true true sampleRegistry { filepath := "scene.xml" }
    sampleScene (scene_init sampleScene proceedState 0 0) rfl rfl (by decide)

/-- C7: with the device-listing flag set and no argument-parse error,
`options_parse` prints the header and one line per `DeviceInfo` in
registry order, suffixing display-capable devices with " (display)", and
exits with success before any scene or session exists. -/
theorem list_devices_behaviour (wOSL wGUI : Bool) (reg : DeviceRegistry)
    (a : ParsedArgs) (loaded : Scene)
    (hpe : a.parseError = false) (hl : a.list = true) :
    options_parse wOSL wGUI reg a loaded
      = ParseOutcome.exited ExitCode.success
          (Msg.devicesHeader ::
            reg.available_devices.map
              (fun d => Msg.deviceLine
                ("    " ++ d.description
                  ++ (if d.display_device then " (display)" else "")))) := by
  simp [options_parse, hpe, hl, deviceLineString]

/-- C7 witness: listing over the concrete registry prints the CPU line
and the display-suffixed CUDA line, then exits successfully. -/
theorem list_devices_behaviour_witness :
    options_parse true true sampleRegistry { list := true } sampleScene
      = ParseOutcome.exited ExitCode.success
          [Msg.devicesHeader, Msg.deviceLine "    Intel CPU",
           Msg.deviceLine "    NVIDIA GPU (display)"] := by
  have h := list_devices_behaviour true true sampleRegistry { list := true } sampleScene
    rfl rfl
  simpa [sampleRegistry, cpuDevice, cudaDevice] using h

/-- C1 (counterexample): a configuration naming an unknown device but
also passing `--help` exits with a success status after printing usage —
no "Unknown device" error and no failure exit, refuting the claim as
universally stated. -/
theorem unknown_device_help_counterexample :
    sampleRegistry.type_from_string "foo" = DeviceType.NONE
    ∧ options_parse true true sampleRegistry
        { devicename := "foo", help := true, filepath := "scene.xml" } sampleScene
      = ParseOutcome.exited ExitCode.success [Msg.usage] :=
  ⟨by decide, by decide⟩

/-- C1 (amended): for every configuration that survives argument
parsing, requests neither device listing nor help, and supplies a scene
path, if the named device's type is the none sentinel or matches no
available `DeviceInfo`, `options_parse` exits with a failure code after
printing the "Unknown device" error, before any session exists. -/
theorem unknown_device_rejected (wOSL wGUI : Bool) (reg : DeviceRegistry)
    (a : ParsedArgs) (loaded : Scene)
    (hpe : a.parseError = false) (hl : a.list = false) (hh : a.help = false)
    (hf : a.filepath ≠ "")
    (hdev : reg.type_from_string a.devicename = DeviceType.NONE
      ∨ ∀ d ∈ reg.available_devices, d.type ≠ reg.type_from_string a.devicename) :
    options_parse wOSL wGUI reg a loaded
      = ParseOutcome.exited ExitCode.failure [Msg.unknownDevice a.devicename] := by
  have hfb : (a.filepath == "") = false := by simpa using hf
  rcases hm : reg.available_devices.find?
      (fun d => d.type == reg.type_from_string a.devicename) with _ | d
  · simp [options_parse, hpe, hl, hh, hfb, hm]
  · have hdtype : d.type = reg.type_from_string a.devicename := by
      simpa using List.find?_some hm
    have hmem := List.mem_of_find?_eq_some hm
    have hnone : d.type = DeviceType.NONE := by
      rcases hdev with hsent | hall
      · rw [hdtype, hsent]
      · exact absurd hdtype (hall d hmem)
    simp [options_parse, hpe, hl, hh, hfb, hm, hnone]

/-- C1 witness: `cycles --device foo scene.xml` against the concrete
registry exits with the "Unknown device" failure. -/
theorem unknown_device_rejected_witness :
    options_parse true true sampleRegistry
        { devicename := "foo", filepath := "scene.xml" } sampleScene
      = ParseOutcome.exited ExitCode.failure [Msg.unknownDevice "foo"] :=
  unknown_device_rejected true true sampleRegistry
    { devicename := "foo", filepath := "scene.xml" } sampleScene
    rfl rfl rfl (by decide) (Or.inl (by decide))

/-- C2 (counterexample): invoking the driver with no scene file path (and
no other flags) exits with a success status after printing usage, not
with the failure exit the claim asserts. -/
theorem missing_filepath_counterexample :
    options_parse true true sampleRegistry {} sampleScene
      = ParseOutcome.exited ExitCode.success [Msg.usage] := by decide

set_option maxHeartbeats 4000000 in
/-- C2 (amended): when no scene file path is supplied (parsing succeeded,
no device listing), the process terminates during `options_parse`, before
`start()`, but with a success exit status via the usage branch; the
dedicated "No file path specified" failure branch is unreachable on every
input. -/
theorem missing_filepath_exits_usage :
    (∀ (wOSL wGUI : Bool) (reg : DeviceRegistry) (a : ParsedArgs) (loaded : Scene),
        a.parseError = false → a.list = false → a.filepath = "" →
        options_parse wOSL wGUI reg a loaded
          = ParseOutcome.exited ExitCode.success [Msg.usage])
    ∧ (∀ (wOSL wGUI : Bool) (reg : DeviceRegistry) (a : ParsedArgs) (loaded : Scene),
        Msg.noFilePath ∉ (options_parse wOSL wGUI reg a loaded).msgs) := by
  constructor
  · intro wOSL wGUI reg a loaded hpe hl hf
    simp [options_parse, hpe, hl, hf]
  · intro wOSL wGUI reg a loaded
    by_cases hpe : a.parseError = true
    · simp [options_parse, hpe, ParseOutcome.msgs]
    · have hpe' : a.parseError = false := by simpa using hpe
      by_cases hl : a.list = true
      · simp [options_parse, hpe', hl, ParseOutcome.msgs]
      · have hl' : a.list = false := by simpa using hl
        by_cases hhelp : a.help = true
        · simp [options_parse, hpe', hl', hhelp, ParseOutcome.msgs]
        · have hhelp' : a.help = false := by simpa using hhelp
          by_cases hfp : a.filepath = ""
          · simp [options_parse, hpe', hl', hhelp', hfp, ParseOutcome.msgs]
          · have hfb : (a.filepath == "") = false := by simpa using hfp
            simp only [options_parse, hpe', hl', hhelp', hfb]
            repeat' split
            all_goals simp [ParseOutcome.msgs]

/-- C2 witness: the amended behaviour at a concrete empty-filepath
invocation. -/
theorem missing_filepath_exits_usage_witness :
    options_parse true true sampleRegistry {} sampleScene
      = ParseOutcome.exited ExitCode.success [Msg.usage]
    ∧ Msg.noFilePath ∉ (options_parse true true sampleRegistry {} sampleScene).msgs :=
  ⟨missing_filepath_exits_usage.1 true true sampleRegistry {} sampleScene rfl rfl rfl,
   missing_filepath_exits_usage.2 true true sampleRegistry {} sampleScene⟩

/-- C9 (counterexample): an OSL-with-CUDA configuration that also passes
`--help` exits successfully after printing usage, refuting the claim as
universally stated for builds with OSL support. -/
theorem osl_gpu_help_counterexample :
    sampleRegistry.type_from_string "cuda" = DeviceType.CUDA
    ∧ options_parse true true sampleRegistry
        { devicename := "cuda", ssname := "osl", help := true, filepath := "scene.xml" }
        sampleScene
      = ParseOutcome.exited ExitCode.success [Msg.usage] :=
  ⟨by decide, by decide⟩

/-- C9 (amended): with OSL support, for every configuration that survives
argument parsing, requests neither listing nor help, supplies a scene
path, selects the OSL shading system, and matches an available device
whose type is neither CPU nor the none sentinel, `options_parse` exits
with a failure code ("OSL shading system only works with CPU device")
before any scene is loaded or session started. -/
theorem osl_requires_cpu_device (wGUI : Bool) (reg : DeviceRegistry) (a : ParsedArgs)
    (loaded : Scene) (d : DeviceInfo)
    (hpe : a.parseError = false) (hl : a.list = false) (hh : a.help = false)
    (hf : a.filepath ≠ "") (hss : a.ssname = "osl")
    (hm : reg.available_devices.find?
        (fun dv => dv.type == reg.type_from_string a.devicename) = some d)
    (hnone : d.type ≠ DeviceType.NONE) (hcpu : d.type ≠ DeviceType.CPU) :
    options_parse true wGUI reg a loaded
      = ParseOutcome.exited ExitCode.failure [Msg.oslCpuOnly] := by
  have hfb : (a.filepath == "") = false := by simpa using hf
  have hnb : (d.type == DeviceType.NONE) = false := by simpa using hnone
  have hcb : (d.type == DeviceType.CPU) = false := by simpa using hcpu
  simp [options_parse, hpe, hl, hh, hfb, hss, hm, hnb, hcb]

/-- C9 witness: `cycles --device cuda --shadingsys osl scene.xml` against
the concrete registry exits with the OSL-requires-CPU failure. -/
theorem osl_requires_cpu_device_witness :
    options_parse true true sampleRegistry
        { devicename := "cuda", ssname := "osl", filepath := "scene.xml" } sampleScene
      = ParseOutcome.exited ExitCode.failure [Msg.oslCpuOnly] :=
  osl_requires_cpu_device true sampleRegistry
    { devicename := "cuda", ssname := "osl", filepath := "scene.xml" } sampleScene
    cudaDevice rfl rfl rfl (by decide) rfl (by decide) (by decide) (by decide)

end Cycles
